import Mathlib

/-!
Shallow embedding of `src/player/js/display.js` (module "sozi.display").

The module keeps a registry of layers, each with a geometry record
`{cx, cy, width, height, rotate, clip}`.  The operations `showFrame`,
`drag`, `zoom`, `rotate` mutate those geometries and then call `update`,
which writes the clip-rectangle attributes and the layer-group transform
back into the scene graph.  The embedding models layer geometries over ℝ,
the registry as a total function from layer ids (strings) to geometries,
and the DOM attributes written by `update` as explicit state components.
JavaScript numbers are modelled as real numbers; the JavaScript `%`
operator is the truncated remainder `jsRem`.
-/

namespace Sozi

/-- Truncation toward zero of a real number, as JavaScript's `Math.trunc`
and the quotient underlying the js `%` operator. -/
noncomputable def jsTrunc (x : ℝ) : ℤ := if 0 ≤ x then ⌊x⌋ else ⌈x⌉

/-- JavaScript's remainder operator `n % d` on finite numbers:
`n - d * trunc (n / d)`; the result takes the sign of `n`. -/
noncomputable def jsRem (n d : ℝ) : ℝ := n - d * jsTrunc (n / d)

/-- A layer's geometry record, as initialized in `onDocumentReady` and
mutated by `showFrame` / `drag` / `zoom` / `rotate`. -/
structure Geometry where
  cx : ℝ
  cy : ℝ
  width : ℝ
  height : ℝ
  rotate : ℝ
  clip : Bool

/-- The object returned by `getFrameGeometry`: location, size and scale of
the visible area for one layer. -/
structure ViewportFrame where
  scale : ℝ
  width : ℝ
  height : ℝ
  x : ℝ
  y : ℝ

/-- The attributes `update` writes on a layer's `svgClipRect`. -/
structure ClipRect where
  x : ℝ
  y : ℝ
  width : ℝ
  height : ℝ

/-- The parameters of the transform string `update` writes on a layer's
group: `scale(s) translate(tx,ty) rotate(a,cx,cy)`. -/
structure Transform where
  scale : ℝ
  translateX : ℝ
  translateY : ℝ
  rotateAngle : ℝ
  rotateCx : ℝ
  rotateCy : ℝ

/-- The whole display state: per-layer geometry registry plus the DOM
attributes the module writes (clip rectangle and group transform). -/
structure DisplayState where
  layers : String → Geometry
  clipRect : String → ClipRect
  transform : String → Transform

/-- Source `getFrameGeometry`: fit the layer's geometry into the viewport
`(W, H)` (the live `window.innerWidth` / `window.innerHeight`),
preserving the aspect ratio, and center it. -/
noncomputable def getFrameGeometry (W H : ℝ) (g : Geometry) : ViewportFrame :=
  let scale := min (W / g.width) (H / g.height)
  { scale := scale
    width := g.width * scale
    height := g.height * scale
    x := (W - g.width * scale) / 2
    y := (H - g.height * scale) / 2 }

/-- Source `update`: for every layer, write the clip rectangle (the frame
rectangle when `clip` is set, the full viewport otherwise) and the
composite transform of the layer group.  The geometry registry itself is
only read. -/
noncomputable def update (W H : ℝ) (st : DisplayState) : DisplayState :=
  { st with
    clipRect := fun idLayer =>
      let lg := st.layers idLayer
      let fg := getFrameGeometry W H lg
      { x := if lg.clip then fg.x else 0
        y := if lg.clip then fg.y else 0
        width := if lg.clip then fg.width else W
        height := if lg.clip then fg.height else H }
    transform := fun idLayer =>
      let lg := st.layers idLayer
      let fg := getFrameGeometry W H lg
      { scale := fg.scale
        translateX := -lg.cx + lg.width / 2 + fg.x / fg.scale
        translateY := -lg.cy + lg.height / 2 + fg.y / fg.scale
        rotateAngle := -lg.rotate
        rotateCx := lg.cx
        rotateCy := lg.cy } }

/-- A frame's per-layer geometry, as consumed by `showFrame`: a JavaScript
object that may carry any subset of the six geometry attributes
(`for (attr in fg)` copies only the attributes present). -/
structure FrameGeometry where
  cx : Option ℝ
  cy : Option ℝ
  width : Option ℝ
  height : Option ℝ
  rotate : Option ℝ
  clip : Option Bool

/-- One entry of `frame.layers`. -/
structure FrameLayer where
  geometry : FrameGeometry

/-- The frame object passed to `showFrame`: layer ids it does not mention
map to `none`. -/
structure Frame where
  layers : String → Option FrameLayer

/-- The inner loop of `showFrame`: `for (attr in fg) lg[attr] = fg[attr]`
copies every attribute present in the source onto the layer geometry. -/
def copyAttrs (fg : FrameGeometry) (lg : Geometry) : Geometry :=
  { cx := fg.cx.getD lg.cx
    cy := fg.cy.getD lg.cy
    width := fg.width.getD lg.width
    height := fg.height.getD lg.height
    rotate := fg.rotate.getD lg.rotate
    clip := fg.clip.getD lg.clip }

/-- Source `showFrame`: for every layer id the frame mentions, copy the attributes
present in the frame's geometry onto the layer's geometry; then `update`. -/
noncomputable def showFrame (W H : ℝ) (frame : Frame) (st : DisplayState) :
    DisplayState :=
  update W H
    { st with
      layers := fun idLayer =>
        match frame.layers idLayer with
        | none => st.layers idLayer
        | some fl => copyAttrs fl.geometry (st.layers idLayer) }

/-- Source `drag`: for every layer, rotate the screen displacement into the
layer's local frame, divide by the current fit scale, subtract it from the
center, and clear the `clip` flag; then `update`. -/
noncomputable def drag (W H deltaX deltaY : ℝ) (st : DisplayState) :
    DisplayState :=
  update W H
    { st with
      layers := fun idLayer =>
        let lg := st.layers idLayer
        let fg := getFrameGeometry W H lg
        let angleRad := lg.rotate * Real.pi / 180
        { lg with
          cx := lg.cx -
            (deltaX * Real.cos angleRad - deltaY * Real.sin angleRad) / fg.scale
          cy := lg.cy -
            (deltaX * Real.sin angleRad + deltaY * Real.cos angleRad) / fg.scale
          clip := false } }

/-- Source `zoom`: compute the compensating displacement for the pivot `(x, y)`,
divide every layer's width and height by the factor, then `drag`. -/
noncomputable def zoom (W H factor x y : ℝ) (st : DisplayState) :
    DisplayState :=
  let deltaX := (1 - factor) * (x - W / 2)
  let deltaY := (1 - factor) * (y - H / 2)
  drag W H deltaX deltaY
    { st with
      layers := fun idLayer =>
        { st.layers idLayer with
          width := (st.layers idLayer).width / factor
          height := (st.layers idLayer).height / factor } }

/-- Source `rotate`: add the angle to every layer's rotation and reduce it with
the js `%` operator; then `update`. -/
noncomputable def rotate (W H angle : ℝ) (st : DisplayState) : DisplayState :=
  update W H
    { st with
      layers := fun idLayer =>
        let lg := st.layers idLayer
        { lg with rotate := jsRem (lg.rotate + angle) 360 } }

/-- The default geometry a layer receives in `onDocumentReady`. -/
def initialGeometry : Geometry :=
  { cx := 0, cy := 0, width := 1, height := 1, rotate := 0, clip := true }

/-- A display state with every layer at the initial geometry and blank
DOM attributes, as right after `onDocumentReady` (before any `update`). -/
def initialState : DisplayState :=
  { layers := fun _ => initialGeometry
    clipRect := fun _ => { x := 0, y := 0, width := 0, height := 0 }
    transform := fun _ =>
      { scale := 0, translateX := 0, translateY := 0
        rotateAngle := 0, rotateCx := 0, rotateCy := 0 } }

/-! ### Helper lemmas on the js remainder -/

/-- The value `jsRem x 360` differs from `x` by an integer multiple of `360`. -/
theorem jsRem360_sub_int (x : ℝ) : ∃ k : ℤ, jsRem x 360 = x - 360 * k :=
  ⟨jsTrunc (x / 360), rfl⟩

/-- The value `jsRem x 360` lies strictly between `-360` and `360`. -/
theorem jsRem360_bounds (x : ℝ) : -360 < jsRem x 360 ∧ jsRem x 360 < 360 := by
  unfold jsRem jsTrunc
  by_cases h : 0 ≤ x / 360
  · rw [if_pos h]
    have h1 : (⌊x / 360⌋ : ℝ) ≤ x / 360 := Int.floor_le _
    have h2 : x / 360 < ⌊x / 360⌋ + 1 := Int.lt_floor_add_one _
    constructor <;> [linarith; linarith]
  · rw [if_neg h]
    have h1 : x / 360 ≤ ⌈x / 360⌉ := Int.le_ceil _
    have h2 : (⌈x / 360⌉ : ℝ) < x / 360 + 1 := Int.ceil_lt_add_one _
    constructor <;> [linarith; linarith]

/-- For a nonnegative argument `jsRem x 360` is nonnegative. -/
theorem jsRem360_nonneg (x : ℝ) (h : 0 ≤ x) : 0 ≤ jsRem x 360 := by
  have h0 : 0 ≤ x / 360 := by positivity
  rw [jsRem, jsTrunc, if_pos h0]
  have h1 : (⌊x / 360⌋ : ℝ) ≤ x / 360 := Int.floor_le _
  linarith

/-! ### Concrete inputs used by witnesses and counterexamples -/

/-- The layer geometry of the spec's end-to-end example: size `(200, 100)`,
rotation `0`, `clip = true`. -/
def g200 : Geometry :=
  { cx := 0, cy := 0, width := 200, height := 100, rotate := 0, clip := true }

/-- A display state with every layer at the example geometry `g200`. -/
def st200 : DisplayState := { initialState with layers := fun _ => g200 }

/-! ### Claims -/

/-- C1: for a geometry with positive width and height and a positive
viewport `(W, H)`, the `ViewportFrame` computed by `getFrameGeometry` has
`scale = min (W / width) (H / height)`, satisfies `scale * width ≤ W` and
`scale * height ≤ H` with equality in at least one dimension, its width and
height are the geometry's width and height times the scale, and
`x = (W - width * scale) / 2`, `y = (H - height * scale) / 2`. -/
theorem getFrameGeometry_fit (W H : ℝ) (g : Geometry)
    (hw : 0 < g.width) (hh : 0 < g.height) (hW : 0 < W) (hH : 0 < H) :
    (getFrameGeometry W H g).scale = min (W / g.width) (H / g.height) ∧
    (getFrameGeometry W H g).scale * g.width ≤ W ∧
    (getFrameGeometry W H g).scale * g.height ≤ H ∧
    ((getFrameGeometry W H g).scale * g.width = W ∨
      (getFrameGeometry W H g).scale * g.height = H) ∧
    (getFrameGeometry W H g).width = g.width * (getFrameGeometry W H g).scale ∧
    (getFrameGeometry W H g).height = g.height * (getFrameGeometry W H g).scale ∧
    (getFrameGeometry W H g).x =
      (W - g.width * (getFrameGeometry W H g).scale) / 2 ∧
    (getFrameGeometry W H g).y =
      (H - g.height * (getFrameGeometry W H g).scale) / 2 := by
  refine ⟨rfl, ?_, ?_, ?_, rfl, rfl, rfl, rfl⟩
  · show min (W / g.width) (H / g.height) * g.width ≤ W
    calc min (W / g.width) (H / g.height) * g.width
        ≤ W / g.width * g.width :=
          mul_le_mul_of_nonneg_right (min_le_left _ _) hw.le
      _ = W := div_mul_cancel₀ _ (ne_of_gt hw)
  · show min (W / g.width) (H / g.height) * g.height ≤ H
    calc min (W / g.width) (H / g.height) * g.height
        ≤ H / g.height * g.height :=
          mul_le_mul_of_nonneg_right (min_le_right _ _) hh.le
      _ = H := div_mul_cancel₀ _ (ne_of_gt hh)
  · rcases min_choice (W / g.width) (H / g.height) with h | h
    · left
      show min (W / g.width) (H / g.height) * g.width = W
      rw [h, div_mul_cancel₀ _ (ne_of_gt hw)]
    · right
      show min (W / g.width) (H / g.height) * g.height = H
      rw [h, div_mul_cancel₀ _ (ne_of_gt hh)]

/-- Witness for C1 at the geometry `g200` and viewport `(800, 400)`. -/
theorem getFrameGeometry_fit_witness :
    (getFrameGeometry 800 400 g200).scale * g200.width ≤ 800 ∧
    ((getFrameGeometry 800 400 g200).scale * g200.width = 800 ∨
      (getFrameGeometry 800 400 g200).scale * g200.height = 400) :=
  have h := getFrameGeometry_fit 800 400 g200 (by norm_num [g200])
    (by norm_num [g200]) (by norm_num) (by norm_num)
  ⟨h.2.1, h.2.2.2.1⟩

/-- C2 counterexample: with geometry size `(200, 100)` and viewport
`(800, 400)`, the computed scale is not `2` (it is `min (800/200) (400/100)
= 4`), so the claimed frame `{scale = 2, width = 400, height = 200,
x = 200, y = 100}` is wrong. -/
theorem getFrameGeometry_example_ne :
    (getFrameGeometry 800 400 g200).scale ≠ 2 := by
  show min ((800 : ℝ) / g200.width) (400 / g200.height) ≠ 2
  norm_num [g200]

/-- C2 amended: with geometry size `(200, 100)`, rotation `0`, `clip =
true`, and viewport `(800, 400)`, `getFrameGeometry` yields
`{scale = 4, width = 800, height = 400, x = 0, y = 0}`. -/
theorem getFrameGeometry_example :
    (getFrameGeometry 800 400 g200).scale = 4 ∧
    (getFrameGeometry 800 400 g200).width = 800 ∧
    (getFrameGeometry 800 400 g200).height = 400 ∧
    (getFrameGeometry 800 400 g200).x = 0 ∧
    (getFrameGeometry 800 400 g200).y = 0 := by
  refine ⟨?_, ?_, ?_, ?_, ?_⟩ <;>
    · simp only [getFrameGeometry, g200]
      norm_num

/-- C3 counterexample: starting from rotation `0`, `rotate (-90)` stores
`-90` (the js `%` keeps the sign of its dividend), which is negative and
not the canonical value `270` of `[0, 360)`. -/
theorem rotate_not_normalized :
    ((rotate 800 400 (-90) st200).layers "a").rotate < 0 ∧
    ((rotate 800 400 (-90) st200).layers "a").rotate ≠ 270 := by
  have hc : ⌈(-90 / 360 : ℝ)⌉ = 0 := by
    rw [Int.ceil_eq_zero_iff]
    simp only [Set.mem_Ioc]
    norm_num
  have hr : ((rotate 800 400 (-90) st200).layers "a").rotate =
      jsRem (0 + -90) 360 := rfl
  rw [show ((0 : ℝ) + -90) = -90 by norm_num] at hr
  rw [jsRem, jsTrunc, if_neg (by norm_num : ¬ (0 : ℝ) ≤ -90 / 360), hc] at hr
  rw [hr]
  norm_num

/-- C3 amended: after `rotate angle`, each layer's stored rotation is the
js remainder `jsRem (old + angle) 360`: it is congruent to `old + angle`
modulo `360` and lies in `(-360, 360)`; it is canonical (in `[0, 360)`)
whenever `old + angle` is nonnegative, but keeps a negative sign when
`old + angle` is negative. -/
theorem rotate_js_normalization (W H angle : ℝ) (st : DisplayState)
    (idLayer : String) :
    ((rotate W H angle st).layers idLayer).rotate =
      jsRem ((st.layers idLayer).rotate + angle) 360 ∧
    (∃ k : ℤ, ((rotate W H angle st).layers idLayer).rotate =
      (st.layers idLayer).rotate + angle - 360 * k) ∧
    -360 < ((rotate W H angle st).layers idLayer).rotate ∧
    ((rotate W H angle st).layers idLayer).rotate < 360 ∧
    (0 ≤ (st.layers idLayer).rotate + angle →
      0 ≤ ((rotate W H angle st).layers idLayer).rotate) := by
  have e : ((rotate W H angle st).layers idLayer).rotate =
      jsRem ((st.layers idLayer).rotate + angle) 360 := rfl
  refine ⟨e, ?_, ?_, ?_, ?_⟩
  · rw [e]; exact jsRem360_sub_int _
  · rw [e]; exact (jsRem360_bounds _).1
  · rw [e]; exact (jsRem360_bounds _).2
  · intro h; rw [e]; exact jsRem360_nonneg _ h

/-- Witness for the amended C3: from rotation `0`, `rotate 90` leaves a
nonnegative stored rotation. -/
theorem rotate_js_normalization_witness :
    0 ≤ ((rotate 800 400 90 st200).layers "a").rotate :=
  (rotate_js_normalization 800 400 90 st200 "a").2.2.2.2
    (by norm_num [st200, initialState, g200])

/-- C4: `rotate a` followed by `rotate (-a)` restores each layer's
rotation up to a multiple of `360` and leaves every other geometry field
untouched. -/
theorem rotate_roundtrip (W H a : ℝ) (st : DisplayState) (idLayer : String) :
    ((rotate W H (-a) (rotate W H a st)).layers idLayer).cx =
      (st.layers idLayer).cx ∧
    ((rotate W H (-a) (rotate W H a st)).layers idLayer).cy =
      (st.layers idLayer).cy ∧
    ((rotate W H (-a) (rotate W H a st)).layers idLayer).width =
      (st.layers idLayer).width ∧
    ((rotate W H (-a) (rotate W H a st)).layers idLayer).height =
      (st.layers idLayer).height ∧
    ((rotate W H (-a) (rotate W H a st)).layers idLayer).clip =
      (st.layers idLayer).clip ∧
    ∃ k : ℤ, ((rotate W H (-a) (rotate W H a st)).layers idLayer).rotate =
      (st.layers idLayer).rotate + 360 * k := by
  refine ⟨rfl, rfl, rfl, rfl, rfl, ?_⟩
  have e : ((rotate W H (-a) (rotate W H a st)).layers idLayer).rotate =
      jsRem (jsRem ((st.layers idLayer).rotate + a) 360 + -a) 360 := rfl
  obtain ⟨k1, h1⟩ := jsRem360_sub_int ((st.layers idLayer).rotate + a)
  obtain ⟨k2, h2⟩ :=
    jsRem360_sub_int (jsRem ((st.layers idLayer).rotate + a) 360 + -a)
  refine ⟨-(k1 + k2), ?_⟩
  rw [e, h2, h1]
  push_cast
  ring

/-- C5 counterexample: `zoom 1` is not a no-op on layer geometry: on a
layer with `clip = true` it flips `clip` to `false`, because `zoom`
unconditionally applies `drag`, which clears the flag. -/
theorem zoom_one_changes_clip :
    (st200.layers "a").clip = true ∧
    ((zoom 800 400 1 100 50 st200).layers "a").clip = false :=
  ⟨rfl, rfl⟩

/-- C5 amended: `zoom 1 x y` leaves every layer's center, size and
rotation unchanged, but sets `clip = false` on every layer (via the
unconditional `drag`). -/
theorem zoom_one_geometry (W H x y : ℝ) (st : DisplayState)
    (idLayer : String) :
    ((zoom W H 1 x y st).layers idLayer).cx = (st.layers idLayer).cx ∧
    ((zoom W H 1 x y st).layers idLayer).cy = (st.layers idLayer).cy ∧
    ((zoom W H 1 x y st).layers idLayer).width = (st.layers idLayer).width ∧
    ((zoom W H 1 x y st).layers idLayer).height = (st.layers idLayer).height ∧
    ((zoom W H 1 x y st).layers idLayer).rotate = (st.layers idLayer).rotate ∧
    ((zoom W H 1 x y st).layers idLayer).clip = false := by
  refine ⟨?_, ?_, ?_, ?_, rfl, rfl⟩ <;>
    simp [zoom, drag, update]

/-- C7: for every displacement `(dx, dy)` and every state, `drag` sets
`clip = false` on each layer and updates the center by the displacement
rotated by the layer's rotation angle and divided by the layer's current
fit scale, leaving width, height and rotation unchanged. -/
theorem drag_spec (W H dx dy : ℝ) (st : DisplayState) (idLayer : String) :
    ((drag W H dx dy st).layers idLayer).clip = false ∧
    ((drag W H dx dy st).layers idLayer).cx =
      (st.layers idLayer).cx -
        (dx * Real.cos ((st.layers idLayer).rotate * Real.pi / 180) -
          dy * Real.sin ((st.layers idLayer).rotate * Real.pi / 180)) /
          (getFrameGeometry W H (st.layers idLayer)).scale ∧
    ((drag W H dx dy st).layers idLayer).cy =
      (st.layers idLayer).cy -
        (dx * Real.sin ((st.layers idLayer).rotate * Real.pi / 180) +
          dy * Real.cos ((st.layers idLayer).rotate * Real.pi / 180)) /
          (getFrameGeometry W H (st.layers idLayer)).scale ∧
    ((drag W H dx dy st).layers idLayer).width = (st.layers idLayer).width ∧
    ((drag W H dx dy st).layers idLayer).height = (st.layers idLayer).height ∧
    ((drag W H dx dy st).layers idLayer).rotate = (st.layers idLayer).rotate :=
  ⟨rfl, rfl, rfl, rfl, rfl, rfl⟩

/-- C9: `zoom` sets `clip = false` on every layer for every factor and
pivot, because it unconditionally applies `drag`. -/
theorem zoom_clears_clip (W H factor x y : ℝ) (st : DisplayState)
    (idLayer : String) :
    ((zoom W H factor x y st).layers idLayer).clip = false :=
  rfl

/-- C6: `showFrame` copies each attribute present in the frame's geometry
verbatim into the layer's stored geometry, keeps each absent attribute at
its previous value, and leaves layers the frame does not mention entirely
unchanged. -/
theorem showFrame_spec (W H : ℝ) (frame : Frame) (st : DisplayState)
    (idLayer : String) :
    (frame.layers idLayer = none →
      (showFrame W H frame st).layers idLayer = st.layers idLayer) ∧
    ∀ fl, frame.layers idLayer = some fl →
      (∀ v, fl.geometry.cx = some v →
        ((showFrame W H frame st).layers idLayer).cx = v) ∧
      (fl.geometry.cx = none →
        ((showFrame W H frame st).layers idLayer).cx =
          (st.layers idLayer).cx) ∧
      (∀ v, fl.geometry.cy = some v →
        ((showFrame W H frame st).layers idLayer).cy = v) ∧
      (fl.geometry.cy = none →
        ((showFrame W H frame st).layers idLayer).cy =
          (st.layers idLayer).cy) ∧
      (∀ v, fl.geometry.width = some v →
        ((showFrame W H frame st).layers idLayer).width = v) ∧
      (fl.geometry.width = none →
        ((showFrame W H frame st).layers idLayer).width =
          (st.layers idLayer).width) ∧
      (∀ v, fl.geometry.height = some v →
        ((showFrame W H frame st).layers idLayer).height = v) ∧
      (fl.geometry.height = none →
        ((showFrame W H frame st).layers idLayer).height =
          (st.layers idLayer).height) ∧
      (∀ v, fl.geometry.rotate = some v →
        ((showFrame W H frame st).layers idLayer).rotate = v) ∧
      (fl.geometry.rotate = none →
        ((showFrame W H frame st).layers idLayer).rotate =
          (st.layers idLayer).rotate) ∧
      (∀ v, fl.geometry.clip = some v →
        ((showFrame W H frame st).layers idLayer).clip = v) ∧
      (fl.geometry.clip = none →
        ((showFrame W H frame st).layers idLayer).clip =
          (st.layers idLayer).clip) := by
  have e : (showFrame W H frame st).layers idLayer =
      match frame.layers idLayer with
      | none => st.layers idLayer
      | some fl => copyAttrs fl.geometry (st.layers idLayer) := rfl
  constructor
  · intro h
    rw [e, h]
  · intro fl h
    rw [e, h]
    refine ⟨fun v hv => ?_, fun hv => ?_, fun v hv => ?_, fun hv => ?_,
      fun v hv => ?_, fun hv => ?_, fun v hv => ?_, fun hv => ?_,
      fun v hv => ?_, fun hv => ?_, fun v hv => ?_, fun hv => ?_⟩ <;>
      simp [copyAttrs, hv]

/-- A partial frame geometry used as witness input: sets only `cx` and
`clip`, leaving the other four attributes absent. -/
def fg0 : FrameGeometry :=
  { cx := some 5, cy := none, width := none, height := none,
    rotate := none, clip := some false }

/-- A frame mentioning only the layer `"a"`, with the partial geometry
`fg0`. -/
def frame0 : Frame :=
  { layers := fun idLayer => if idLayer = "a" then some ⟨fg0⟩ else none }

/-- Witness for C6: showing `frame0` copies its `cx` into layer `"a"`,
keeps that layer's `cy`, and leaves layer `"b"` unchanged. -/
theorem showFrame_spec_witness :
    ((showFrame 800 400 frame0 st200).layers "a").cx = 5 ∧
    ((showFrame 800 400 frame0 st200).layers "a").cy =
      (st200.layers "a").cy ∧
    (showFrame 800 400 frame0 st200).layers "b" = st200.layers "b" :=
  have ha : frame0.layers "a" = some ⟨fg0⟩ := by simp [frame0]
  have hb : frame0.layers "b" = none := by simp [frame0]
  have h := (showFrame_spec 800 400 frame0 st200 "a").2 ⟨fg0⟩ ha
  ⟨h.1 5 rfl, h.2.2.2.1 rfl, (showFrame_spec 800 400 frame0 st200 "b").1 hb⟩

/-- C8: for every `factor > 0` and pivot, `zoom` divides every layer's
width and height by the factor and then applies `drag` with
`deltaX = (1 - factor) * (x - W/2)` and `deltaY = (1 - factor) * (y -
H/2)`; in particular `zoom 2 (400, 200)` at viewport `(800, 400)` gives a
zero displacement, halves width and height, and keeps each center. -/
theorem zoom_spec (W H factor x y : ℝ) (st : DisplayState)
    (hfactor : 0 < factor) :
    zoom W H factor x y st =
      drag W H ((1 - factor) * (x - W / 2)) ((1 - factor) * (y - H / 2))
        { st with
          layers := fun idLayer =>
            { st.layers idLayer with
              width := (st.layers idLayer).width / factor
              height := (st.layers idLayer).height / factor } } ∧
    ∀ idLayer,
      ((zoom 800 400 2 400 200 st).layers idLayer).width =
        (st.layers idLayer).width / 2 ∧
      ((zoom 800 400 2 400 200 st).layers idLayer).height =
        (st.layers idLayer).height / 2 ∧
      ((zoom 800 400 2 400 200 st).layers idLayer).cx =
        (st.layers idLayer).cx ∧
      ((zoom 800 400 2 400 200 st).layers idLayer).cy =
        (st.layers idLayer).cy := by
  refine ⟨rfl, fun idLayer => ⟨rfl, rfl, ?_, ?_⟩⟩ <;>
    · simp only [zoom, drag, update]
      norm_num

/-- Witness for C8 at factor `2`, pivot `(400, 200)`, viewport
`(800, 400)`, state `st200`. -/
theorem zoom_spec_witness :
    ((zoom 800 400 2 400 200 st200).layers "a").width =
      (st200.layers "a").width / 2 ∧
    ((zoom 800 400 2 400 200 st200).layers "a").cx =
      (st200.layers "a").cx :=
  have h := (zoom_spec 800 400 2 400 200 st200 (by norm_num)).2 "a"
  ⟨h.1, h.2.2.1⟩

/-- C10: `update` never alters any layer's stored geometry: the registry
component is unchanged by one call, and by any number of iterated calls;
only the clip-rectangle and transform attributes are written. -/
theorem update_preserves_geometry (W H : ℝ) (st : DisplayState) :
    (update W H st).layers = st.layers ∧
    ∀ n : ℕ, ((update W H)^[n] st).layers = st.layers := by
  refine ⟨rfl, ?_⟩
  intro n
  induction n with
  | zero => rfl
  | succ n ih =>
    rw [Function.iterate_succ_apply']
    exact ih

end Sozi
